import Mathlib

/-!
Verification of the restaurant-filtering module
(`Restaurant_Browsing.py`): a shallow embedding of the data model,
the filter engine `RestaurantBrowsing`, the in-memory
`RestaurantDatabase`, and the wrapper `RestaurantSearch`, together
with proofs of the specified properties.

Modelling decisions:
- Restaurant records are a structure with the five dictionary fields
  appearing in the source; `delivery_speed` is `Option Int` since the
  data model documents it as optional and the code accesses it with
  `dict.get`.
- Python float ratings are modelled as rationals `ℚ`; only order
  comparisons on decimal literals occur in the code, and every decimal
  literal of the source (such as `4.5`) is written as the equal rational
  `mkRat 45 10`.
- Python `str.lower` is modelled by mapping `Char.toLower` over the
  string's characters (the source only deals in ASCII data).
- Python truthiness in `if cuisine_type:` / `if location:` is modelled
  explicitly: `None` and the empty string are falsy.  In the
  `delivery_speed` branch, `r.get("delivery_speed") and ...` makes an
  absent field and the integer `0` falsy.
- The wrapper `RestaurantSearch.search_restaurants` invokes
  `search_by_filters` with keyword arguments; Python keyword binding
  (reject unknown keyword names with `TypeError`) is modelled
  explicitly because the wrapper passes the keyword `min_rating`,
  which is not a parameter of `search_by_filters`.
-/

/-- A restaurant record: one dictionary of the database list. -/
structure Restaurant where
  name : String
  cuisine : String
  location : String
  rating : ℚ
  delivery_speed : Option Int
deriving Repr, DecidableEq

/-- The in-memory database object: holds the list of restaurant records. -/
structure RestaurantDatabase where
  restaurants : List Restaurant
deriving Repr, DecidableEq

/-- `RestaurantDatabase.get_restaurants`: returns the stored list. -/
def RestaurantDatabase.get_restaurants (db : RestaurantDatabase) : List Restaurant :=
  db.restaurants

/-- The seed data built by `RestaurantDatabase.__init__`. -/
def seedRestaurants : List Restaurant :=
  [ ⟨"Pizza Palace", "Italian", "New York", mkRat 45 10, some 30⟩,
    ⟨"Sushi World", "Japanese", "San Francisco", mkRat 47 10, some 40⟩,
    ⟨"Burger Shack", "American", "Los Angeles", mkRat 42 10, some 25⟩,
    ⟨"Taco Stand", "Mexican", "Chicago", mkRat 39 10, some 20⟩,
    ⟨"Vegan Delight", "Vegan", "Austin", mkRat 48 10, some 35⟩,
    ⟨"Dim Sum House", "Chinese", "Seattle", mkRat 46 10, some 50⟩,
    ⟨"Italian Bistro", "Italian", "Downtown", mkRat 40 10, some 30⟩,
    ⟨"Sushi Express", "Japanese", "Downtown", mkRat 42 10, some 30⟩ ]

/-- A freshly constructed `RestaurantDatabase()`. -/
def seedDatabase : RestaurantDatabase := ⟨seedRestaurants⟩

/-- Python `str.lower`, restricted to the ASCII data of this program. -/
def pyLower (s : String) : String :=
  ⟨s.data.map Char.toLower⟩

/-- The browsing object holds a reference to the database. -/
structure RestaurantBrowsing where
  database : RestaurantDatabase

/-- `RestaurantBrowsing.search_by_cuisine`: list comprehension keeping the
records whose lowered cuisine equals the lowered query. -/
def RestaurantBrowsing.search_by_cuisine (b : RestaurantBrowsing)
    (cuisine_type : String) : List Restaurant :=
  b.database.get_restaurants.filter
    (fun r => pyLower r.cuisine == pyLower cuisine_type)

/-- `RestaurantBrowsing.search_by_location`: list comprehension keeping the
records whose lowered location equals the lowered query. -/
def RestaurantBrowsing.search_by_location (b : RestaurantBrowsing)
    (location : String) : List Restaurant :=
  b.database.get_restaurants.filter
    (fun r => pyLower r.location == pyLower location)

/-- `RestaurantBrowsing.search_by_rating`: keeps the records whose rating
is at least `min_rating`. -/
def RestaurantBrowsing.search_by_rating (b : RestaurantBrowsing)
    (min_rating : ℚ) : List Restaurant :=
  b.database.get_restaurants.filter (fun r => min_rating ≤ r.rating)

/-- The `if cuisine_type:` stage of `search_by_filters`.  A `None` or empty
(falsy) string leaves the working list untouched, otherwise the working
list is narrowed by case-insensitive cuisine equality. -/
def applyCuisineStage (cuisine_type : Option String)
    (results : List Restaurant) : List Restaurant :=
  match cuisine_type with
  | some s =>
      if s = "" then results
      else results.filter (fun r => pyLower r.cuisine == pyLower s)
  | none => results

/-- The `if location:` stage of `search_by_filters`. -/
def applyLocationStage (location : Option String)
    (results : List Restaurant) : List Restaurant :=
  match location with
  | some s =>
      if s = "" then results
      else results.filter (fun r => pyLower r.location == pyLower s)
  | none => results

/-- The `if rating is not None:` stage of `search_by_filters`. -/
def applyRatingStage (rating : Option ℚ)
    (results : List Restaurant) : List Restaurant :=
  match rating with
  | some z => results.filter (fun r => z ≤ r.rating)
  | none => results

/-- The predicate `r.get("delivery_speed") and r["delivery_speed"] <= w`:
an absent field or the (falsy) value `0` short-circuits to exclusion. -/
def deliverySpeedKeeps (w : Int) (r : Restaurant) : Bool :=
  match r.delivery_speed with
  | some d => if d = 0 then false else d ≤ w
  | none => false

/-- The `if delivery_speed is not None:` stage of `search_by_filters`. -/
def applyDeliveryStage (delivery_speed : Option Int)
    (results : List Restaurant) : List Restaurant :=
  match delivery_speed with
  | some w => results.filter (deliverySpeedKeeps w)
  | none => results

/-- `RestaurantBrowsing.search_by_filters`: starts with all restaurants and
applies the four optional narrowing stages in the order of the source. -/
def RestaurantBrowsing.search_by_filters (b : RestaurantBrowsing)
    (cuisine_type : Option String) (location : Option String)
    (rating : Option ℚ) (delivery_speed : Option Int) : List Restaurant :=
  applyDeliveryStage delivery_speed
    (applyRatingStage rating
      (applyLocationStage location
        (applyCuisineStage cuisine_type b.database.get_restaurants)))

/-- A Python value as passed by keyword to `search_by_filters`: the call
sites pass strings, numbers, or `None`. -/
inductive PyVal where
  | str (s : String)
  | rat (q : ℚ)
  | int (n : Int)
  | noneV
deriving Repr, DecidableEq

/-- Keyword payload of an optional string argument. -/
def optStrVal : Option String → PyVal
  | some s => .str s
  | none => .noneV

/-- Keyword payload of an optional rational (Python float) argument. -/
def optRatVal : Option ℚ → PyVal
  | some q => .rat q
  | none => .noneV

/-- Reading an optional-string parameter out of a bound keyword value. -/
def pyvalAsOptStr : PyVal → Option String
  | .str s => some s
  | _ => none

/-- Reading an optional-rational parameter out of a bound keyword value. -/
def pyvalAsOptRat : PyVal → Option ℚ
  | .rat q => some q
  | _ => none

/-- Reading an optional-integer parameter out of a bound keyword value. -/
def pyvalAsOptInt : PyVal → Option Int
  | .int n => some n
  | _ => none

/-- The keyword parameter names of `search_by_filters` as defined. -/
def filtersParamNames : List String :=
  ["cuisine_type", "location", "rating", "delivery_speed"]

/-- A keyword-argument call of `search_by_filters`: Python raises
`TypeError` when a keyword is not among the parameter names; otherwise
each parameter takes the bound value or its default `None`. -/
def callSearchByFilters (b : RestaurantBrowsing)
    (kwargs : List (String × PyVal)) : Except String (List Restaurant) :=
  match kwargs.find? (fun kv => !(filtersParamNames.contains kv.1)) with
  | some kv =>
      .error ("TypeError: search_by_filters() got an unexpected keyword argument " ++ kv.1)
  | none =>
      .ok (b.search_by_filters
        (pyvalAsOptStr ((kwargs.lookup "cuisine_type").getD .noneV))
        (pyvalAsOptStr ((kwargs.lookup "location").getD .noneV))
        (pyvalAsOptRat ((kwargs.lookup "rating").getD .noneV))
        (pyvalAsOptInt ((kwargs.lookup "delivery_speed").getD .noneV)))

/-- The wrapper object holds a reference to the browsing object. -/
structure RestaurantSearch where
  browsing : RestaurantBrowsing

/-- `RestaurantSearch.search_restaurants`: forwards its three parameters to
`search_by_filters` by keyword, using the keyword names written in the
source — `cuisine_type`, `location`, and `min_rating`. -/
def RestaurantSearch.search_restaurants (s : RestaurantSearch)
    (cuisine : Option String) (location : Option String)
    (rating : Option ℚ) : Except String (List Restaurant) :=
  callSearchByFilters s.browsing
    [("cuisine_type", optStrVal cuisine),
     ("location", optStrVal location),
     ("min_rating", optRatVal rating)]

/-- A database-state-passing computation: the method's result paired with
the database state after the call. -/
def DbComp (α : Type) : Type := RestaurantDatabase → α × RestaurantDatabase

/-- The single state access of every search method: the read
`self.database.get_restaurants()`. -/
def getRestaurantsRead : DbComp (List Restaurant) := fun db =>
  (db.restaurants, db)

/-- State-passing view of `search_by_cuisine`: one read, then a pure list
comprehension (the body contains no assignment to the database). -/
def search_by_cuisine_call (cuisine_type : String) : DbComp (List Restaurant) := fun db =>
  let rd := getRestaurantsRead db
  (rd.1.filter (fun r => pyLower r.cuisine == pyLower cuisine_type), rd.2)

/-- State-passing view of `search_by_location`. -/
def search_by_location_call (location : String) : DbComp (List Restaurant) := fun db =>
  let rd := getRestaurantsRead db
  (rd.1.filter (fun r => pyLower r.location == pyLower location), rd.2)

/-- State-passing view of `search_by_rating`. -/
def search_by_rating_call (min_rating : ℚ) : DbComp (List Restaurant) := fun db =>
  let rd := getRestaurantsRead db
  (rd.1.filter (fun r => min_rating ≤ r.rating), rd.2)

/-- State-passing view of `search_by_filters`: one read, then the four
pure narrowing stages. -/
def search_by_filters_call (cuisine_type location : Option String)
    (rating : Option ℚ) (delivery_speed : Option Int) : DbComp (List Restaurant) := fun db =>
  let rd := getRestaurantsRead db
  (applyDeliveryStage delivery_speed
    (applyRatingStage rating
      (applyLocationStage location
        (applyCuisineStage cuisine_type rd.1))), rd.2)

/-- State-passing view of `search_restaurants`: the keyword-argument call
of `search_by_filters` (which raises before reading any state, see
`callSearchByFilters`) together with the database state afterwards. -/
def search_restaurants_call (cuisine location : Option String)
    (rating : Option ℚ) : DbComp (Except String (List Restaurant)) := fun db =>
  (callSearchByFilters ⟨db⟩
    [("cuisine_type", optStrVal cuisine),
     ("location", optStrVal location),
     ("min_rating", optRatVal rating)], db)

/-- The state-passing view of `search_by_filters` computes the same result
list as the pure function. -/
theorem search_by_filters_call_fst (db : RestaurantDatabase)
    (c l : Option String) (z : Option ℚ) (w : Option Int) :
    (search_by_filters_call c l z w db).1 =
      RestaurantBrowsing.search_by_filters ⟨db⟩ c l z w := rfl

/-- Every record surviving the cuisine stage came from the input list. -/
theorem applyCuisineStage_sub (c : Option String) (l : List Restaurant)
    (r : Restaurant) (h : r ∈ applyCuisineStage c l) : r ∈ l := by
  cases c with
  | none => exact h
  | some s =>
      unfold applyCuisineStage at h
      by_cases hs : s = ""
      · simpa [hs] using h
      · simp only [if_neg hs] at h
        exact (List.mem_filter.mp h).1

/-- Every record surviving the location stage came from the input list. -/
theorem applyLocationStage_sub (c : Option String) (l : List Restaurant)
    (r : Restaurant) (h : r ∈ applyLocationStage c l) : r ∈ l := by
  cases c with
  | none => exact h
  | some s =>
      unfold applyLocationStage at h
      by_cases hs : s = ""
      · simpa [hs] using h
      · simp only [if_neg hs] at h
        exact (List.mem_filter.mp h).1

/-- Every record surviving the rating stage came from the input list. -/
theorem applyRatingStage_sub (z : Option ℚ) (l : List Restaurant)
    (r : Restaurant) (h : r ∈ applyRatingStage z l) : r ∈ l := by
  cases z with
  | none => exact h
  | some q => exact (List.mem_filter.mp h).1

/-- Every record surviving the delivery-speed stage came from the input
list. -/
theorem applyDeliveryStage_sub (w : Option Int) (l : List Restaurant)
    (r : Restaurant) (h : r ∈ applyDeliveryStage w l) : r ∈ l := by
  cases w with
  | none => exact h
  | some v => exact (List.mem_filter.mp h).1

/-- The delivery-speed predicate holds exactly on a present, non-zero
speed below the ceiling. -/
theorem deliverySpeedKeeps_iff (w : Int) (r : Restaurant) :
    deliverySpeedKeeps w r = true ↔
      ∃ d, r.delivery_speed = some d ∧ d ≠ 0 ∧ d ≤ w := by
  unfold deliverySpeedKeeps
  cases hd : r.delivery_speed with
  | none => simp
  | some d =>
      by_cases h0 : d = 0
      · simp [h0]
      · simp [h0]

/-- The location stage maps an empty working list to an empty list. -/
theorem applyLocationStage_nil (l : Option String) : applyLocationStage l [] = [] := by
  cases l with
  | none => rfl
  | some s => simp [applyLocationStage]

/-- The rating stage maps an empty working list to an empty list. -/
theorem applyRatingStage_nil (z : Option ℚ) : applyRatingStage z [] = [] := by
  cases z with
  | none => rfl
  | some q => rfl

/-- The delivery-speed stage maps an empty working list to an empty list. -/
theorem applyDeliveryStage_nil (w : Option Int) : applyDeliveryStage w [] = [] := by
  cases w with
  | none => rfl
  | some v => rfl

/-- Claim C1 (code_bug evidence): every call of the facade
`RestaurantSearch.search_restaurants`, whatever the argument values,
raises `TypeError`, because it forwards the keyword `min_rating` while
the engine parameter is named `rating`; it never returns the result
list of `RestaurantBrowsing.search_by_filters`. -/
theorem search_restaurants_always_raises_type_error
    (s : RestaurantSearch) (cuisine location : Option String) (rating : Option ℚ) :
    s.search_restaurants cuisine location rating =
      .error "TypeError: search_by_filters() got an unexpected keyword argument min_rating" :=
  rfl

/-- Claim C2 counterexample: with only the delivery-speed ceiling `10`
supplied, a record with `delivery_speed = 0 ≤ 10` and a record with the
field absent are both dropped by `search_by_filters` (the result is
empty), contradicting the claim that every record with delivery speed
below the ceiling, including zero or absent, appears in the result. -/
theorem delivery_speed_zero_or_absent_excluded :
    (⟨"Zero Speed", "Thai", "Midtown", 4, some 0⟩ : Restaurant) ∈
      (⟨⟨[⟨"Zero Speed", "Thai", "Midtown", 4, some 0⟩,
          ⟨"No Speed", "Thai", "Midtown", 4, none⟩]⟩⟩ :
        RestaurantBrowsing).database.get_restaurants ∧
    (0 : Int) ≤ 10 ∧
    (⟨⟨[⟨"Zero Speed", "Thai", "Midtown", 4, some 0⟩,
        ⟨"No Speed", "Thai", "Midtown", 4, none⟩]⟩⟩ :
      RestaurantBrowsing).search_by_filters none none none (some 10) = [] := by
  decide

/-- Claim C2 amended: with only the delivery-speed ceiling `w` supplied,
`search_by_filters` returns exactly the records whose `delivery_speed`
field is present, non-zero, and at most `w`; a record whose field is `0`
or absent is excluded even though `0 ≤ w`. -/
theorem delivery_filter_membership (b : RestaurantBrowsing) (w : Int) (r : Restaurant) :
    r ∈ b.search_by_filters none none none (some w) ↔
      r ∈ b.database.get_restaurants ∧
        ∃ d, r.delivery_speed = some d ∧ d ≠ 0 ∧ d ≤ w := by
  unfold RestaurantBrowsing.search_by_filters applyCuisineStage applyLocationStage
    applyRatingStage applyDeliveryStage
  rw [List.mem_filter, deliverySpeedKeeps_iff]

/-- Claim C3: with only the minimum rating `z` supplied, both
`search_by_filters` and `search_by_rating` return exactly the records of
the collection whose rating is at least `z`. -/
theorem rating_filter_membership (b : RestaurantBrowsing) (z : ℚ) (r : Restaurant) :
    (r ∈ b.search_by_filters none none (some z) none ↔
      r ∈ b.database.get_restaurants ∧ z ≤ r.rating) ∧
    (r ∈ b.search_by_rating z ↔
      r ∈ b.database.get_restaurants ∧ z ≤ r.rating) := by
  unfold RestaurantBrowsing.search_by_filters RestaurantBrowsing.search_by_rating
    applyCuisineStage applyLocationStage applyRatingStage applyDeliveryStage
  constructor <;> · rw [List.mem_filter]; simp

/-- Claim C4: for a non-empty cuisine query, both `search_by_cuisine` and
`search_by_filters` with only the cuisine supplied return exactly the
records whose lowered cuisine equals the lowered query. -/
theorem cuisine_filter_membership (b : RestaurantBrowsing) (q : String)
    (hq : q ≠ "") (r : Restaurant) :
    (r ∈ b.search_by_cuisine q ↔
      r ∈ b.database.get_restaurants ∧ pyLower r.cuisine = pyLower q) ∧
    (r ∈ b.search_by_filters (some q) none none none ↔
      r ∈ b.database.get_restaurants ∧ pyLower r.cuisine = pyLower q) := by
  simp only [RestaurantBrowsing.search_by_filters, RestaurantBrowsing.search_by_cuisine,
    applyCuisineStage, applyLocationStage, applyRatingStage, applyDeliveryStage]
  rw [if_neg hq]
  constructor <;> · rw [List.mem_filter]; simp

/-- Claim C4 witness: at the seed database with query `"Italian"`, the
record `"Pizza Palace"` is returned by `search_by_cuisine` exactly
because its cuisine matches case-insensitively. -/
theorem cuisine_filter_membership_witness :
    (⟨"Pizza Palace", "Italian", "New York", mkRat 45 10, some 30⟩ : Restaurant) ∈
      (⟨seedDatabase⟩ : RestaurantBrowsing).search_by_cuisine "Italian" :=
  ((cuisine_filter_membership ⟨seedDatabase⟩ "Italian" (by decide)
    ⟨"Pizza Palace", "Italian", "New York", mkRat 45 10, some 30⟩).1).mpr
    ⟨by decide, by decide⟩

/-- Claim C5: with no predicate supplied, `search_by_filters` returns the
database's record list unchanged, order included; at the seed database
this is the full seed record list. -/
theorem no_filters_returns_all (b : RestaurantBrowsing) :
    b.search_by_filters none none none none = b.database.get_restaurants ∧
    (⟨seedDatabase⟩ : RestaurantBrowsing).search_by_filters none none none none =
      seedRestaurants :=
  ⟨rfl, rfl⟩

/-- Claim C6: whatever the supplied filter combination, every record
returned by `search_by_filters` is a record of the database. -/
theorem filter_result_subset_database (b : RestaurantBrowsing)
    (c l : Option String) (z : Option ℚ) (w : Option Int) (r : Restaurant)
    (h : r ∈ b.search_by_filters c l z w) : r ∈ b.database.get_restaurants :=
  applyCuisineStage_sub c _ r
    (applyLocationStage_sub l _ r
      (applyRatingStage_sub z _ r
        (applyDeliveryStage_sub w _ r h)))

/-- Claim C6 witness: the record returned by the combined seed-data
search is indeed a record of the seed database. -/
theorem filter_result_subset_database_witness :
    (⟨"Italian Bistro", "Italian", "Downtown", mkRat 40 10, some 30⟩ : Restaurant) ∈
      seedDatabase.get_restaurants :=
  filter_result_subset_database ⟨seedDatabase⟩
    (some "Italian") (some "Downtown") (some (mkRat 40 10)) none
    ⟨"Italian Bistro", "Italian", "Downtown", mkRat 40 10, some 30⟩ (by decide)

/-- Claim C7: whatever combination of filters is passed to
`search_by_filters`, if any one supplied criterion — a truthy cuisine, a
truthy location, a minimum rating, or a delivery-speed ceiling — matches
zero records of the collection, the call returns the empty list: a
normal value (the embedding is total on this path), never an error. -/
theorem no_match_returns_empty_list (b : RestaurantBrowsing)
    (c l : Option String) (z : Option ℚ) (w : Option Int)
    (h : (∃ s, c = some s ∧ s ≠ "" ∧
            ∀ r ∈ b.database.get_restaurants, pyLower r.cuisine ≠ pyLower s) ∨
         (∃ s, l = some s ∧ s ≠ "" ∧
            ∀ r ∈ b.database.get_restaurants, pyLower r.location ≠ pyLower s) ∨
         (∃ q, z = some q ∧
            ∀ r ∈ b.database.get_restaurants, ¬ q ≤ r.rating) ∨
         (∃ v, w = some v ∧
            ∀ r ∈ b.database.get_restaurants, deliverySpeedKeeps v r = false)) :
    b.search_by_filters c l z w = [] := by
  unfold RestaurantBrowsing.search_by_filters
  rcases h with ⟨s, hc, hs, hall⟩ | ⟨s, hl, hs, hall⟩ | ⟨q, hz, hall⟩ | ⟨v, hw, hall⟩
  · subst hc
    have h1 : applyCuisineStage (some s) b.database.get_restaurants = [] := by
      simp only [applyCuisineStage]
      rw [if_neg hs, List.filter_eq_nil_iff]
      intro r hr
      simpa using hall r hr
    rw [h1, applyLocationStage_nil, applyRatingStage_nil, applyDeliveryStage_nil]
  · subst hl
    have h1 : applyLocationStage (some s)
        (applyCuisineStage c b.database.get_restaurants) = [] := by
      simp only [applyLocationStage]
      rw [if_neg hs, List.filter_eq_nil_iff]
      intro r hr
      simpa using hall r (applyCuisineStage_sub c _ r hr)
    rw [h1, applyRatingStage_nil, applyDeliveryStage_nil]
  · subst hz
    have h1 : applyRatingStage (some q)
        (applyLocationStage l (applyCuisineStage c b.database.get_restaurants)) = [] := by
      simp only [applyRatingStage]
      rw [List.filter_eq_nil_iff]
      intro r hr
      simpa using hall r
        (applyCuisineStage_sub c _ r (applyLocationStage_sub l _ r hr))
    rw [h1, applyDeliveryStage_nil]
  · subst hw
    have h1 : applyDeliveryStage (some v)
        (applyRatingStage z
          (applyLocationStage l (applyCuisineStage c b.database.get_restaurants))) = [] := by
      simp only [applyDeliveryStage]
      rw [List.filter_eq_nil_iff]
      intro r hr
      rw [Bool.not_eq_true]
      exact hall r
        (applyCuisineStage_sub c _ r
          (applyLocationStage_sub l _ r (applyRatingStage_sub z _ r hr)))
    rw [h1]

/-- Claim C7 witness: no seed record has cuisine `"Thai"`; with the
cuisine criterion supplied together with a minimum rating, the search
returns the empty list. -/
theorem no_match_returns_empty_list_witness :
    (⟨seedDatabase⟩ : RestaurantBrowsing).search_by_filters
      (some "Thai") none (some (mkRat 40 10)) none = [] :=
  no_match_returns_empty_list ⟨seedDatabase⟩
    (some "Thai") none (some (mkRat 40 10)) none
    (Or.inl ⟨"Thai", rfl, by decide, by decide⟩)

/-- Claim C8: on the seed database, combining cuisine `"Italian"`,
location `"Downtown"` and minimum rating `4.0` returns exactly one
record, named `"Italian Bistro"`. -/
theorem seed_italian_downtown_unique :
    (⟨seedDatabase⟩ : RestaurantBrowsing).search_by_filters
        (some "Italian") (some "Downtown") (some (mkRat 40 10)) none =
      [⟨"Italian Bistro", "Italian", "Downtown", mkRat 40 10, some 30⟩] := by
  decide

/-- Claim C9: in the state-passing view of every search method — cuisine,
location, rating, combined filters, and the facade search — the database
after the call equals the database before it: the searches are pure
reads and never mutate the record list. -/
theorem search_operations_preserve_database (db : RestaurantDatabase)
    (q loc : String) (z : ℚ) (c l : Option String) (oz : Option ℚ) (w : Option Int) :
    (search_by_cuisine_call q db).2 = db ∧
    (search_by_location_call loc db).2 = db ∧
    (search_by_rating_call z db).2 = db ∧
    (search_by_filters_call c l oz w db).2 = db ∧
    (search_restaurants_call c l oz db).2 = db :=
  ⟨rfl, rfl, rfl, rfl, rfl⟩

/-- Claim C10: in `search_by_filters`, supplying the empty string for
`cuisine_type` or for `location` behaves exactly like leaving that
parameter unset: the falsy value skips the corresponding filter stage. -/
theorem empty_string_filters_skipped (b : RestaurantBrowsing)
    (c l : Option String) (z : Option ℚ) (w : Option Int) :
    b.search_by_filters (some "") l z w = b.search_by_filters none l z w ∧
    b.search_by_filters c (some "") z w = b.search_by_filters c none z w := by
  constructor
  · rfl
  · cases c with
    | none => rfl
    | some s =>
        unfold RestaurantBrowsing.search_by_filters applyLocationStage
        rfl
